import Mathlib

/-!
Shallow embedding of the whiteboard front-end's core control logic:
the Snapshot/History Store, the Health Prober, the Sandbox Lifecycle
Controller effect, the cross-frame message handlers (host router and
embedded listeners), the periodic snapshot flush, and the Canvas Sync
Engine reconciliation.  Definitions are translated from
`src/components/WhiteboardCanvas.tsx` (the file holds two versions of the
component; where they differ both are modelled) and from the `useSandbox`
hook.
-/

namespace WB

/-- The protocol namespace tag (`ns` field) used on every cross-frame
message: the literal `"ai-tutor/wb"`. -/
def wbNs : String := "ai-tutor/wb"

/-! ## Snapshot/History Store

Embeds `historyRef` / `historyIndexRef` / `pushHistory` / `undo` / `redo`
from `WhiteboardCanvas.tsx` (lines 164-240, identical in both copies).
The snapshot type is a parameter `α` (in the code a snapshot is the
`json.objects` array captured from the fabric canvas).  `canvas` is the
current content of the fabric canvas (what `toJSON` would capture and what
`loadFromJSON` overwrites). -/

structure HistState (α : Type) where
  entries : List α
  cursor : Int
  canvas : α
deriving DecidableEq

/-- One event affecting the history store.  `push s` models "the canvas
content became `s` (a local mutation or an inbound backend redraw) and
`pushHistory()` was called", which is how the code always invokes
`pushHistory` (it captures the canvas state just produced). -/
inductive HistOp (α : Type) where
  | push (s : α)
  | undo
  | redo
deriving DecidableEq

/-- `pushHistory()`: `if (h.length >= 50) h.shift(); h.push(json.objects);
historyIndexRef.current = h.length - 1;` where `json.objects` is the
current canvas content. -/
def pushHistory {α : Type} (st : HistState α) : HistState α :=
  let h := if 50 ≤ st.entries.length then st.entries.tail else st.entries
  { entries := h ++ [st.canvas]
    cursor := ((h ++ [st.canvas]).length : Int) - 1
    canvas := st.canvas }

/-- `undo()`: no-op when `historyIndexRef.current <= 0`; otherwise
decrement the cursor and `loadFromJSON(h[cursor])`.  Out-of-range access
(never reached from reachable states) is modelled with the current canvas
as `getD` default. -/
def undo {α : Type} (st : HistState α) : HistState α :=
  if st.cursor ≤ 0 then st
  else
    { entries := st.entries
      cursor := st.cursor - 1
      canvas := st.entries.getD (st.cursor - 1).toNat st.canvas }

/-- `redo()`: no-op when `historyIndexRef.current >= h.length - 1`;
otherwise increment the cursor and `loadFromJSON(h[cursor])`. -/
def redo {α : Type} (st : HistState α) : HistState α :=
  if (st.entries.length : Int) - 1 ≤ st.cursor then st
  else
    { entries := st.entries
      cursor := st.cursor + 1
      canvas := st.entries.getD (st.cursor + 1).toNat st.canvas }

/-- Apply one history event. -/
def applyHistOp {α : Type} (st : HistState α) : HistOp α → HistState α
  | .push s => pushHistory { st with canvas := s }
  | .undo => undo st
  | .redo => redo st

/-- Initial store: `historyRef = []`, `historyIndexRef = -1`, canvas blank. -/
def initHist {α : Type} (blank : α) : HistState α :=
  { entries := [], cursor := -1, canvas := blank }

/-- The state reached after a sequence of history events from the initial
state: every reachable history state is of this form. -/
def runHist {α : Type} (blank : α) (ops : List (HistOp α)) : HistState α :=
  ops.foldl applyHistOp (initHist blank)

/-- The spec's history-cursor invariant: `0 <= cursor < length` when the
sequence is non-empty, `cursor = -1` when empty. -/
def histInv {α : Type} (st : HistState α) : Prop :=
  (st.entries = [] ∧ st.cursor = -1) ∨
    (st.entries ≠ [] ∧ 0 ≤ st.cursor ∧ st.cursor < st.entries.length)

/-- `pushHistory` called `N` times with canvas contents `f 0, …, f (N-1)`. -/
def pushOps {α : Type} (f : Nat → α) (N : Nat) : List (HistOp α) :=
  (List.range N).map (fun i => HistOp.push (f i))

/-! ## Health Prober

Embeds `waitForHealth` from the `useSandbox` hook:

```
const deadline = Date.now() + 90_000;
while (Date.now() < deadline) {
  try {
    // fetch `${baseUrl}/api/health` with a 4 s AbortController timer
    if (res.ok) { const json = await res.json(); if (json && json.ok) return true; }
  } catch {}
  await new Promise(r => setTimeout(r, 1000));
}
return false;
```

The environment supplies, for each iteration `i`, the outcome of the
health request (`probe i`) and the wall-clock time the request consumed
(`reqDur i`); the 4 s abort timer bounds `reqDur i` by `4000` wherever a
claim needs it. -/

/-- Outcome of one health-poll iteration. `ready` means `res.ok` and the
body's `ok` field truthy; every other outcome (non-2xx, body not ready,
network error, abort-timer timeout) falls through to the 1 s sleep and
the next iteration. -/
inductive PollResult where
  | ready
  | notOkResp
  | bodyNotReady
  | netError
  | reqTimeout
deriving DecidableEq

/-- Readiness test: `res.ok && json.ok`. -/
def PollResult.isReady : PollResult → Bool
  | .ready => true
  | _ => false

/-- The polling loop.  `d` is the absolute deadline, `now` the current
time, `iter` the iteration index.  Returns (success?, return time). -/
def runHealth (d : Nat) (probe : Nat → PollResult) (reqDur : Nat → Nat)
    (now iter : Nat) : Bool × Nat :=
  if h : now < d then
    if (probe iter).isReady then (true, now + reqDur iter)
    else runHealth d probe reqDur (now + reqDur iter + 1000) (iter + 1)
  else (false, now)
termination_by d - now
decreasing_by omega

/-- `waitForHealth(baseUrl)` invoked at time `start`: deadline is
`start + 90_000` (the fixed 90 s budget). -/
def waitForHealth (probe : Nat → PollResult) (reqDur : Nat → Nat)
    (start : Nat) : Bool × Nat :=
  runHealth (start + 90000) probe reqDur start 0

/-- Elapsed time of the first `j` full (unsuccessful) poll iterations
starting at iteration `iter`: each costs its request duration plus the
1 s sleep. -/
def sumDur (reqDur : Nat → Nat) (iter : Nat) : Nat → Nat
  | 0 => 0
  | j + 1 => reqDur iter + 1000 + sumDur reqDur (iter + 1) j

/-! ## Sandbox Lifecycle Controller

Embeds the status effect of the `useSandbox` hook (the `useEffect` that
launches or reattaches).  One run of the effect body is modelled as the
list of observable events it performs, given the session-query result,
the current status, and the environment's outcomes for the launch action
and the health probes. -/

/-- `SandboxStatus`: `"idle" | "starting" | "ready" | "error"`. -/
inductive SandboxStatus where
  | idle
  | starting
  | ready
  | error
deriving DecidableEq

/-- Result of `useQuery(getSession)`: still loading (`undefined`), `null`
(no such session), or a record with an optional `sandbox_url`. -/
inductive SessionQ where
  | undef
  | nullRec
  | record (sandboxUrl : Option String)
deriving DecidableEq

/-- Environment outcomes for one effect run: the `launchSandbox` action
either resolves with a URL or throws, and the health probe against the
fresh (resp. pre-existing) URL succeeds or fails. -/
structure LaunchEnv where
  launch : Except Unit String
  healthFresh : Bool
  healthExisting : Bool

/-- Observable events of one effect run, in program order. -/
inductive SbEv where
  | setStatus (s : SandboxStatus)
  | setUrl (u : String)
  | launchCall
deriving DecidableEq

/-- One run of the `useSandbox` status effect:

```
if (!sessionId || session === undefined) return;
if (session === null) { setStatus("error"); return; }
if (session.sandbox_url) {           // reattach path
  if (status === "idle") setStatus("starting");
  const healthy = await waitForHealth(session.sandbox_url);
  if (healthy) { setUrl(...); setStatus("ready"); }
  return;
}
if (status === "idle") {             // fresh-launch path
  try {
    setStatus("starting");
    const resp = await launchSandbox({ sessionId });
    const healthy = await waitForHealth(resp.url);
    if (healthy) { setUrl(resp.url); setStatus("ready"); }
  } catch (err) { ...; setStatus("error"); }
}
```

`waitForHealth` resolves with a boolean and never throws (every request
error is caught inside its loop), so the `catch` branch fires exactly
when `launchSandbox` throws. -/
def sandboxEffect (hasSessionId : Bool) (session : SessionQ)
    (status : SandboxStatus) (env : LaunchEnv) : List SbEv :=
  if ¬ hasSessionId ∨ session = SessionQ.undef then []
  else if session = SessionQ.nullRec then [SbEv.setStatus SandboxStatus.error]
  else
    match session with
    | SessionQ.record (some u) =>
        (if status = SandboxStatus.idle
          then [SbEv.setStatus SandboxStatus.starting] else []) ++
        (if env.healthExisting
          then [SbEv.setUrl u, SbEv.setStatus SandboxStatus.ready] else [])
    | SessionQ.record none =>
        if status = SandboxStatus.idle then
          SbEv.setStatus SandboxStatus.starting :: SbEv.launchCall ::
            (match env.launch with
             | Except.ok u =>
                 if env.healthFresh
                   then [SbEv.setUrl u, SbEv.setStatus SandboxStatus.ready]
                   else []
             | Except.error _ => [SbEv.setStatus SandboxStatus.error])
        else []
    | _ => []

/-- The sequence of status values an effect run writes. -/
def statusEvents (evs : List SbEv) : List SandboxStatus :=
  evs.filterMap (fun e => match e with
    | SbEv.setStatus s => some s
    | _ => none)

/-- How many times an effect run invokes the launch action. -/
def launchCount (evs : List SbEv) : Nat :=
  evs.countP (fun e => match e with
    | SbEv.launchCall => true
    | _ => false)

/-! ## Cross-Frame Message Router

A cross-frame message as the handlers access it: every field is optional
because inbound `ev.data` is untrusted JSON read with optional chaining.
The nested payload fields (`payload.sessionId`, `payload.convexUrl`,
`payload.token`, `payload.action`, `payload.args.zoom`, `payload.index`,
`payload.objects`) are flattened; a missing payload simply yields `none`
for all of them.  Whiteboard objects carried by messages are opaque and
modelled as `Nat`. -/

structure WBMessage where
  ns : Option String
  v : Option Nat
  type : Option String
  sessionId : Option String
  convexUrl : Option String
  token : Option String
  action : Option String
  zoom : Option Int
  index : Option Int
  objects : Option (List Nat)
deriving DecidableEq

/-- JavaScript truthiness of an optional string: `undefined`/`null` and
the empty string are falsy. -/
def truthyStr : Option String → Bool
  | none => false
  | some s => decide (s ≠ "")

/-- Observable actions the host-side `handleMessage` can perform. -/
inductive HostAct where
  | postInit (origin : String) (sessionId : Option String)
      (convexUrl : Option String)
  | setStatusReady
  | insertSnapshot (sessionId : String) (index : Int) (objects : List Nat)
deriving DecidableEq

/-- Host-side `handleMessage` of `useSandbox`:

```
if (!url) return;
if (data?.ns !== "ai-tutor/wb") return;
if (data.type === "ready") { post "init" to the iframe at new URL(url).origin;
                             setStatus("ready"); return; }
if (data.type === "snapshot") {
  if (!sessionId) return;
  insertSnapshot({ sessionId, snapshotIndex: payload?.index ?? 0,
                   actionsJson: JSON.stringify(payload?.objects ?? []) }); }
```

Returns the list of observable actions in program order (an empty list is
"the message was dropped with no state change and no reply").  The
`postInit` action records the target (the sandbox URL, standing for
`new URL(url).origin`) and the forwarded session id / convex URL. -/
def hostHandleMessage (url : Option String) (sessionId : Option String)
    (convexUrl : Option String) (m : Option WBMessage) : List HostAct :=
  if ¬ truthyStr url then []
  else
    match url, m with
    | _, none => []
    | none, _ => []
    | some u, some msg =>
      if msg.ns ≠ some wbNs then []
      else if msg.type = some "ready" then
        [HostAct.postInit u sessionId convexUrl, HostAct.setStatusReady]
      else if msg.type = some "snapshot" then
        if ¬ truthyStr sessionId then []
        else
          match sessionId with
          | none => []
          | some sid =>
            [HostAct.insertSnapshot sid (msg.index.getD 0)
              (msg.objects.getD [])]
      else []

/-- The embedded side's captured init payload (`setInit` state). -/
structure InitSt where
  sessionId : String
  convexUrl : String
  token : Option String
deriving DecidableEq

/-- Embedded-side `handleMessage` of `WhiteboardCanvas` (identical in both
copies of the component):

```
if (!ev.data || ev.data.ns !== "ai-tutor/wb") return;
if (ev.data.type === "init" && ev.data.payload?.sessionId) {
  const { sessionId, convexUrl, token } = ev.data.payload;
  if (!convexUrl) { console.error(...); return; }
  setInit({ sessionId, convexUrl, token });
}
```

Returns the new `init` state (unchanged means the message was ignored). -/
def embedHandleMessage (st : Option InitSt) (m : Option WBMessage) :
    Option InitSt :=
  match m with
  | none => st
  | some msg =>
    if msg.ns ≠ some wbNs then st
    else if msg.type = some "init" ∧ truthyStr msg.sessionId then
      if ¬ truthyStr msg.convexUrl then st
      else
        match msg.sessionId, msg.convexUrl with
        | some sid, some cu => some ⟨sid, cu, msg.token⟩
        | _, _ => st
    else st

/-- Embedded-side UI state acted on by the parent-command listeners:
the history store (whose `canvas` field is the fabric canvas content,
here a list of opaque objects), the zoom factor, the history-view flags,
and the canvas interaction switches `evented` / `selection`. -/
structure CmdState where
  hist : HistState (List Nat)
  zoom : Int
  isHistoryMode : Bool
  historyBanner : Bool
  evented : Bool
  selection : Bool
deriving DecidableEq

/-- `cmdListener` of the first copy of `WhiteboardCanvas`
(lines 496-524), modelled with the fabric canvas present:

```
if (!ev.data || ev.data.ns !== "ai-tutor/wb" || ev.data.type !== "command") return;
const action = ev.data.payload?.action;
if (action === "undo") undo();
else if (action === "redo") redo();
else if (action === "setZoom") { const zoom = ev.data.payload?.args?.zoom ?? 1; ... }
else if (ev.data.type === "jump") { ... enter history mode ... }
```

Note the `jump` branch sits inside the block guarded by
`ev.data.type !== "command"`, and is therefore dead code: the listener
drops every `jump` message at the first guard. -/
def cmdListener1 (st : CmdState) (m : Option WBMessage) : CmdState :=
  match m with
  | none => st
  | some msg =>
    if msg.ns ≠ some wbNs ∨ msg.type ≠ some "command" then st
    else if msg.action = some "undo" then { st with hist := undo st.hist }
    else if msg.action = some "redo" then { st with hist := redo st.hist }
    else if msg.action = some "setZoom" then
      { st with zoom := msg.zoom.getD 1 }
    else if msg.type = some "jump" then
      match msg.objects with
      | none => st
      | some objs =>
        { st with
          isHistoryMode := true
          historyBanner := true
          evented := false
          selection := false
          hist := { st.hist with canvas := objs } }
    else st

/-- `cmdListener` of the second copy of `WhiteboardCanvas`
(lines 1059-1089), modelled with the fabric canvas present:

```
if (!ev.data || ev.data.ns !== "ai-tutor/wb") return;
if (ev.data.type === "command") { dispatch undo / redo / setZoom }
else if (ev.data.type === "jump") {
  const { objects } = ev.data.payload ?? {};
  if (!objects) return;
  setIsHistoryMode(true); setHistoryBanner(true);
  fc.evented = false; fc.selection = false;
  fc.loadFromJSON({ objects }, ...);
}
```
-/
def cmdListener2 (st : CmdState) (m : Option WBMessage) : CmdState :=
  match m with
  | none => st
  | some msg =>
    if msg.ns ≠ some wbNs then st
    else if msg.type = some "command" then
      if msg.action = some "undo" then { st with hist := undo st.hist }
      else if msg.action = some "redo" then { st with hist := redo st.hist }
      else if msg.action = some "setZoom" then
        { st with zoom := msg.zoom.getD 1 }
      else st
    else if msg.type = some "jump" then
      match msg.objects with
      | none => st
      | some objs =>
        { st with
          isHistoryMode := true
          historyBanner := true
          evented := false
          selection := false
          hist := { st.hist with canvas := objs } }
    else st

/-- A message with every field absent, for building concrete examples. -/
def emptyMsg : WBMessage :=
  { ns := none, v := none, type := none, sessionId := none,
    convexUrl := none, token := none, action := none, zoom := none,
    index := none, objects := none }

/-- A correctly-namespaced `jump` message carrying the object list
`[1, 2]`. -/
def jumpMsg : WBMessage :=
  { emptyMsg with
    ns := some wbNs
    v := some 1
    type := some "jump"
    index := some 3
    objects := some [1, 2] }

/-- A `jump` message with the protocol namespace but no object list. -/
def jumpMsgNoObjects : WBMessage :=
  { emptyMsg with
    ns := some wbNs
    v := some 1
    type := some "jump"
    index := some 3 }

/-- A message whose `ns` field is not the protocol tag. -/
def alienMsg : WBMessage :=
  { emptyMsg with
    ns := some "other-protocol"
    type := some "ready"
    sessionId := some "s1"
    convexUrl := some "https://cvx"
    zoom := some 2
    index := some 0
    objects := some [7] }

/-- A concrete live-mode embedded UI state. -/
def liveCmdState : CmdState :=
  { hist := { entries := [[], [5]], cursor := 1, canvas := [5] }
    zoom := 1
    isHistoryMode := false
    historyBanner := false
    evented := true
    selection := true }

/-- A correctly-namespaced `ready` message (embedded→host handshake). -/
def readyMsg : WBMessage :=
  { emptyMsg with ns := some wbNs, v := some 1, type := some "ready" }

/-- A correctly-namespaced `snapshot` message with index 7 and objects
`[4, 2]`. -/
def snapshotMsg : WBMessage :=
  { emptyMsg with
    ns := some wbNs
    type := some "snapshot"
    index := some 7
    objects := some [4, 2] }

/-! ## Periodic snapshot flush

Embeds the `setInterval(..., 5000)` flush timer and the mutation counter
(`mutationCounterRef`, `lastSnapshotTsRef`):

```
snapshotIntervalRef.current = window.setInterval(() => {
  if (Date.now() - lastSnapshotTsRef.current >= 60000 || mutationCounterRef.current >= 20) {
    ... post snapshot to parent ...
    mutationCounterRef.current = 0;
    lastSnapshotTsRef.current = Date.now();
  }
}, 5000);
```

A trace interleaves `mut` events (a local mutation incremented the
counter: `mutationCounterRef.current += 1`) with `tick now` events (the
5 s interval callback ran at time `now`, with the fabric canvas present).
Tick times supplied by `setInterval` are at least 5000 apart, which the
claims take as a hypothesis on the trace. -/

structure FlushSt where
  mutCount : Nat
  lastTs : Nat
deriving DecidableEq

inductive FlushEv where
  | mutate
  | tick (now : Nat)
deriving DecidableEq

/-- One event of the flush system: returns the new state and whether a
snapshot message was posted to the host. -/
def flushStep (st : FlushSt) : FlushEv → FlushSt × Bool
  | FlushEv.mutate => ({ st with mutCount := st.mutCount + 1 }, false)
  | FlushEv.tick now =>
    if 60000 ≤ now - st.lastTs ∨ 20 ≤ st.mutCount then
      ({ mutCount := 0, lastTs := now }, true)
    else (st, false)

/-- Run a trace of flush events; returns the final state and the times of
the snapshot flushes that fired. -/
def runFlush (st : FlushSt) : List FlushEv → FlushSt × List Nat
  | [] => (st, [])
  | e :: rest =>
    let p := flushStep st e
    let r := runFlush p.1 rest
    (r.1,
      (match e, p.2 with
       | FlushEv.tick now, true => [now]
       | _, _ => []) ++ r.2)

/-- The times of the 5 s check ticks occurring in a trace. -/
def tickTimes : List FlushEv → List Nat :=
  List.filterMap (fun e => match e with
    | FlushEv.tick n => some n
    | FlushEv.mutate => none)

/-! ## Canvas Sync Engine

Embeds the sync effect of the first copy of `WhiteboardCanvas`
(lines 388-493): clear the canvas, restore the background colour (read
from the canvas before the clear), clear the widget overlay layer, then
iterate the object list once, creating one scene primitive (or one widget
overlay div) per recognised kind tag — `ink`, `rect`, `ellipse`, `arrow`,
`widget` — and skipping every other kind; finally request one render
pass. -/

/-- A whiteboard object specification as delivered by the backend.  The
runtime value is untrusted JSON, so the kind tag is open: `other` stands
for any kind the sync loop does not recognise. -/
inductive WBObjectSpec where
  | ink (id d : String) (stroke : Option String) (width : Option Int)
  | rect (id : String) (x y width height : Int)
      (fill stroke : Option String)
  | ellipse (id : String) (cx cy rx ry : Int)
      (fill stroke : Option String)
  | arrow (id : String) (x1 y1 x2 y2 : Int) (color : Option String)
      (width : Option Int)
  | widget (id entry : String) (x y width height : Option Int)
  | other (id kind : String)
deriving DecidableEq

/-- JavaScript `a || d` for an optional string `a`: `undefined`, `null`
and `""` select the default. -/
def jsOrStr : Option String → String → String
  | none, d => d
  | some s, d => if s = "" then d else s

/-- JavaScript `a || d` for an optional number `a`: `undefined`, `null`
and `0` select the default. -/
def jsOrInt : Option Int → Int → Int
  | none, d => d
  | some n, d => if n = 0 then d else n

/-- A fabric scene primitive created by the sync loop, carrying the
construction parameters and the originating object id
(`metadata = { id }`).  The arrow's two-part group (line plus triangular
head) is a deterministic function of the stored endpoints, colour and
width, so it is recorded by those parameters. -/
inductive Prim where
  | path (d stroke : String) (strokeWidth : Int) (oid : String)
  | rect (left top width height : Int) (fill stroke : String)
      (oid : String)
  | ellipse (left top rx ry : Int) (fill stroke : String) (oid : String)
  | arrowGroup (x1 y1 x2 y2 : Int) (color : String) (width : Int)
      (oid : String)
deriving DecidableEq

/-- A widget overlay div appended to the widget layer. -/
structure WidgetDiv where
  x : Int
  y : Int
  width : Int
  height : Int
  label : String
deriving DecidableEq

/-- The canvas primitive (if any) one spec contributes:
`ink → fabric.Path(d, {stroke: stroke || "#000000", strokeWidth: width || 2})`,
`rect → fabric.Rect({left: x, top: y, ..., fill: fill ?? "", stroke: stroke ?? "#000000"})`,
`ellipse → fabric.Ellipse({left: cx - rx, top: cy - ry, ...})`,
`arrow → fabric.Group([line, head], ...)` with `color ?? "#000000"` and
`width ?? 2`; `widget` contributes no canvas primitive, and unknown kinds
are skipped. -/
def specToPrim : WBObjectSpec → Option Prim
  | WBObjectSpec.ink id d stroke width =>
      some (Prim.path d (jsOrStr stroke "#000000") (jsOrInt width 2) id)
  | WBObjectSpec.rect id x y w h fill stroke =>
      some (Prim.rect x y w h (fill.getD "") (stroke.getD "#000000") id)
  | WBObjectSpec.ellipse id cx cy rx ry fill stroke =>
      some (Prim.ellipse (cx - rx) (cy - ry) rx ry (fill.getD "")
        (stroke.getD "#000000") id)
  | WBObjectSpec.arrow id x1 y1 x2 y2 color width =>
      some (Prim.arrowGroup x1 y1 x2 y2 (color.getD "#000000")
        (width.getD 2) id)
  | WBObjectSpec.widget _ _ _ _ _ _ => none
  | WBObjectSpec.other _ _ => none

/-- The widget overlay div (if any) one spec contributes: destructuring
defaults `x = 0, y = 0, width = 120, height = 60`, and
`innerText = "Widget: " + (entry || "unknown")`. -/
def specToWidget : WBObjectSpec → Option WidgetDiv
  | WBObjectSpec.widget _ entry x y w h =>
      some { x := x.getD 0
             y := y.getD 0
             width := w.getD 120
             height := h.getD 60
             label := "Widget: " ++ (if entry = "" then "unknown" else entry) }
  | _ => none

/-- The visible scene: the canvas background colour, the canvas
primitives in insertion order, and the widget overlay divs in insertion
order. -/
structure Scene where
  bg : String
  prims : List Prim
  widgets : List WidgetDiv
deriving DecidableEq

/-- The scene at fabric-canvas creation:
`new fabric.Canvas(..., { backgroundColor: "#ffffff" })`, empty. -/
def initScene : Scene := { bg := "#ffffff", prims := [], widgets := [] }

/-- One run of the sync effect on object list `objs`: `canvas.clear()`
discards all primitives, `setBackgroundColor(bgColor)` restores the
background read from the prior scene, the widget layer's `innerHTML` is
emptied, then the loop appends one primitive / widget div per recognised
spec. -/
def reconcile (sc : Scene) (objs : List WBObjectSpec) : Scene :=
  { bg := sc.bg
    prims := objs.filterMap specToPrim
    widgets := objs.filterMap specToWidget }

/-- Scenes reachable by the embedded view: the freshly created canvas and
everything the sync effect produces from a reachable scene.  (No code
path ever writes a background colour other than the initial `"#ffffff"`.) -/
inductive SceneReach : Scene → Prop where
  | init : SceneReach initScene
  | step (sc : Scene) (objs : List WBObjectSpec) :
      SceneReach sc → SceneReach (reconcile sc objs)

end WB

/-! ## Helper lemmas for the history store -/

namespace WB

theorem histInv_applyHistOp {α : Type} (st : HistState α) (op : HistOp α)
    (h : histInv st) : histInv (applyHistOp st op) := by
  cases op with
  | push s =>
    right
    simp only [applyHistOp, pushHistory]
    have hlen :
        0 < ((if 50 ≤ st.entries.length then st.entries.tail else st.entries)
          ++ [s]).length := by
      simp
    refine ⟨by simp, by omega, by omega⟩
  | undo =>
    simp only [applyHistOp, undo]
    split
    · exact h
    · rename_i hguard
      rcases h with ⟨he, hc⟩ | ⟨hne, hc0, hclt⟩
      · omega
      · right
        dsimp only
        exact ⟨hne, by omega, by omega⟩
  | redo =>
    simp only [applyHistOp, redo]
    split
    · exact h
    · rename_i hguard
      rcases h with ⟨he, hc⟩ | ⟨hne, hc0, hclt⟩
      · exfalso
        rw [he] at hguard
        simp at hguard
        omega
      · right
        dsimp only
        exact ⟨hne, by omega, by omega⟩

theorem histInv_foldl {α : Type} (ops : List (HistOp α)) (st : HistState α)
    (h : histInv st) : histInv (ops.foldl applyHistOp st) := by
  induction ops generalizing st with
  | nil => exact h
  | cons op rest ih => exact ih _ (histInv_applyHistOp st op h)

theorem histInv_initHist {α : Type} (blank : α) : histInv (initHist blank) := by
  left; simp [initHist]

theorem histInv_runHist {α : Type} (blank : α) (ops : List (HistOp α)) :
    histInv (runHist blank ops) :=
  histInv_foldl ops _ (histInv_initHist blank)

theorem getD_of_lt {α : Type} (l : List α) (n : Nat) (d₁ d₂ : α)
    (h : n < l.length) : l.getD n d₁ = l.getD n d₂ := by
  induction l generalizing n with
  | nil => simp at h
  | cons a t ih =>
    cases n with
    | zero => simp [List.getD]
    | succ m =>
      simp only [List.getD_cons_succ]
      exact ih m (by simpa using h)

end WB

/-! ## Claim theorems: history store -/

namespace WB

/-- C5: the history-cursor invariant (`0 <= cursor < length` when the
sequence is non-empty, `cursor = -1` when empty) holds in the initial
state and in every state reachable by any sequence of `pushHistory`,
`undo`, `redo` operations. -/
theorem claim_C5_history_cursor_invariant {α : Type} (blank : α)
    (ops : List (HistOp α)) :
    histInv (initHist blank) ∧ histInv (runHist blank ops) :=
  ⟨histInv_initHist blank, histInv_runHist blank ops⟩

/-- C3: from every reachable history state whose cursor `c` is positive,
`undo` followed by `redo` restores the cursor to `c`, leaves the history
buffer unchanged, and reloads the canvas from exactly the snapshot the
cursor pointed at before the `undo` (which is in range, so the `getD`
default is irrelevant). -/
theorem claim_C3_undo_redo_roundtrip {α : Type} (blank : α)
    (ops : List (HistOp α)) (h : 0 < (runHist blank ops).cursor) :
    (redo (undo (runHist blank ops))).cursor = (runHist blank ops).cursor ∧
    (redo (undo (runHist blank ops))).entries = (runHist blank ops).entries ∧
    (runHist blank ops).cursor < ((runHist blank ops).entries.length : Int) ∧
    (redo (undo (runHist blank ops))).canvas =
      (runHist blank ops).entries.getD (runHist blank ops).cursor.toNat
        (runHist blank ops).canvas := by
  have hinv := histInv_runHist blank ops
  set st := runHist blank ops with hst
  rcases hinv with ⟨he, hc⟩ | ⟨hne, hc0, hclt⟩
  · omega
  · have hguard1 : ¬ st.cursor ≤ 0 := by omega
    have hu : undo st =
        { entries := st.entries, cursor := st.cursor - 1,
          canvas := st.entries.getD (st.cursor - 1).toNat st.canvas } := by
      simp [undo, hguard1]
    have hguard2 : ¬ ((st.entries.length : Int) - 1 ≤ st.cursor - 1) := by omega
    have hcc : st.cursor - 1 + 1 = st.cursor := by omega
    have hr : redo (undo st) =
        { entries := st.entries, cursor := st.cursor,
          canvas := st.entries.getD st.cursor.toNat
            (st.entries.getD (st.cursor - 1).toNat st.canvas) } := by
      rw [hu]
      simp only [redo]
      rw [if_neg hguard2, hcc]
    refine ⟨by rw [hr], by rw [hr], hclt, ?_⟩
    rw [hr]
    exact getD_of_lt _ _ _ _ (by omega)

/-- C3 witness: the undo/redo roundtrip theorem instantiated at the
reachable state after two `pushHistory` calls (cursor 1). -/
theorem claim_C3_witness :
    0 < (runHist (0 : Nat) [HistOp.push 1, HistOp.push 2]).cursor ∧
    ((redo (undo (runHist (0 : Nat)
        [HistOp.push 1, HistOp.push 2]))).cursor =
      (runHist (0 : Nat) [HistOp.push 1, HistOp.push 2]).cursor ∧
    (redo (undo (runHist (0 : Nat)
        [HistOp.push 1, HistOp.push 2]))).entries =
      (runHist (0 : Nat) [HistOp.push 1, HistOp.push 2]).entries ∧
    (runHist (0 : Nat) [HistOp.push 1, HistOp.push 2]).cursor <
      ((runHist (0 : Nat) [HistOp.push 1, HistOp.push 2]).entries.length :
        Int) ∧
    (redo (undo (runHist (0 : Nat)
        [HistOp.push 1, HistOp.push 2]))).canvas =
      (runHist (0 : Nat) [HistOp.push 1, HistOp.push 2]).entries.getD
        (runHist (0 : Nat) [HistOp.push 1, HistOp.push 2]).cursor.toNat
        (runHist (0 : Nat) [HistOp.push 1, HistOp.push 2]).canvas) :=
  ⟨by decide,
   claim_C3_undo_redo_roundtrip (0 : Nat) [HistOp.push 1, HistOp.push 2]
     (by decide)⟩

theorem runHist_pushOps_succ {α : Type} (blank : α) (f : Nat → α) (N : Nat) :
    runHist blank (pushOps f (N + 1)) =
      applyHistOp (runHist blank (pushOps f N)) (HistOp.push (f N)) := by
  unfold runHist pushOps
  rw [List.range_succ, List.map_append, List.foldl_append]
  rfl

theorem runHist_pushOps_spec {α : Type} (blank : α) (f : Nat → α) (N : Nat) :
    (runHist blank (pushOps f N)).entries =
      ((List.range N).map f).drop (N - 50) ∧
    (runHist blank (pushOps f N)).cursor =
      ((runHist blank (pushOps f N)).entries.length : Int) - 1 := by
  induction N with
  | zero => exact ⟨rfl, rfl⟩
  | succ N ih =>
    obtain ⟨ihE, ihC⟩ := ih
    rw [runHist_pushOps_succ]
    have hlenN : ((List.range N).map f).length = N := by simp
    have hElen : (runHist blank (pushOps f N)).entries.length = N - (N - 50) := by
      rw [ihE, List.length_drop, hlenN]
    constructor
    · simp only [applyHistOp, pushHistory]
      by_cases h50 : 50 ≤ N
      · have hguard : 50 ≤ (runHist blank (pushOps f N)).entries.length := by
          omega
        rw [if_pos hguard, ihE, List.tail_drop]
        have hle : N + 1 - 50 ≤ ((List.range N).map f).length := by omega
        rw [List.range_succ, List.map_append,
          List.drop_append_of_le_length hle]
        have : N - 50 + 1 = N + 1 - 50 := by omega
        rw [this]
        rfl
      · have hguard : ¬ 50 ≤ (runHist blank (pushOps f N)).entries.length := by
          omega
        rw [if_neg hguard, ihE]
        have h1 : N - 50 = 0 := by omega
        have h2 : N + 1 - 50 = 0 := by omega
        rw [h1, h2, List.drop_zero, List.drop_zero, List.range_succ,
          List.map_append]
        rfl
    · simp only [applyHistOp, pushHistory]

theorem length_drop_min {α : Type} (f : Nat → α) (N : Nat) :
    (((List.range N).map f).drop (N - 50)).length = min N 50 := by
  rw [List.length_drop]
  simp only [List.length_map, List.length_range]
  omega

end WB

/-! ## Claim theorem: pushHistory bounded FIFO behaviour -/

namespace WB

/-- C4: calling `pushHistory` N times from an empty history (with canvas
contents `f 0, …, f (N-1)`) leaves the history sequence equal to the last
`min N 50` snapshots (FIFO eviction of the oldest, index 0, once at
capacity), with length `min N 50` and cursor at the last index; in
particular after the 51st call the entry at index 0 (`f 0`) is evicted and
the cursor equals 49. -/
theorem claim_C4_pushHistory_fifo {α : Type} (blank : α) (f : Nat → α)
    (N : Nat) :
    (runHist blank (pushOps f N)).entries =
      ((List.range N).map f).drop (N - 50) ∧
    (runHist blank (pushOps f N)).entries.length = min N 50 ∧
    (runHist blank (pushOps f N)).cursor = (min N 50 : Int) - 1 ∧
    (runHist blank (pushOps f 51)).entries =
      ((List.range 51).map f).drop 1 ∧
    (runHist blank (pushOps f 51)).cursor = 49 := by
  obtain ⟨hE, hC⟩ := runHist_pushOps_spec blank f N
  obtain ⟨hE51, hC51⟩ := runHist_pushOps_spec blank f 51
  have hlen : (runHist blank (pushOps f N)).entries.length = min N 50 := by
    rw [hE, length_drop_min]
  have hlen51 : (runHist blank (pushOps f 51)).entries.length = min 51 50 := by
    rw [hE51, length_drop_min]
  refine ⟨hE, hlen, ?_, ?_, ?_⟩
  · rw [hC, hlen]
    omega
  · simpa using hE51
  · rw [hC51, hlen51]
    norm_num

end WB

/-! ## Health Prober lemmas and claim theorems -/

namespace WB

theorem runHealth_deadline (d : Nat) (p : Nat → PollResult) (r : Nat → Nat)
    (now iter : Nat) (h : ¬ now < d) :
    runHealth d p r now iter = (false, now) := by
  rw [runHealth.eq_def, dif_neg h]

theorem runHealth_ready (d : Nat) (p : Nat → PollResult) (r : Nat → Nat)
    (now iter : Nat) (h : now < d) (hr : (p iter).isReady = true) :
    runHealth d p r now iter = (true, now + r iter) := by
  rw [runHealth.eq_def, dif_pos h, if_pos hr]

theorem runHealth_retry (d : Nat) (p : Nat → PollResult) (r : Nat → Nat)
    (now iter : Nat) (h : now < d) (hr : (p iter).isReady = false) :
    runHealth d p r now iter =
      runHealth d p r (now + r iter + 1000) (iter + 1) := by
  rw [runHealth.eq_def, dif_pos h, if_neg (by rw [hr]; exact Bool.false_ne_true)]

theorem runHealth_time_le (d : Nat) (p : Nat → PollResult) (r : Nat → Nat)
    (hdur : ∀ i, r i ≤ 4000) :
    ∀ k now iter, d - now ≤ k →
      (runHealth d p r now iter).2 ≤ max now (d + 4999) := by
  intro k
  induction k with
  | zero =>
    intro now iter hk
    have h : ¬ now < d := by omega
    rw [runHealth_deadline d p r now iter h]
    exact le_max_left _ _
  | succ k ih =>
    intro now iter hk
    by_cases h : now < d
    · cases hready : (p iter).isReady with
      | true =>
        rw [runHealth_ready d p r now iter h hready]
        have := hdur iter
        exact le_max_of_le_right (by omega)
      | false =>
        rw [runHealth_retry d p r now iter h hready]
        have h2 : d - (now + r iter + 1000) ≤ k := by omega
        have hle := ih (now + r iter + 1000) (iter + 1) h2
        have hb : max (now + r iter + 1000) (d + 4999) = d + 4999 := by
          have := hdur iter
          exact max_eq_right (by omega)
        rw [hb] at hle
        exact le_max_of_le_right hle
    · rw [runHealth_deadline d p r now iter h]
      exact le_max_left _ _

theorem runHealth_false_deadline (d : Nat) (p : Nat → PollResult)
    (r : Nat → Nat) :
    ∀ k now iter, d - now ≤ k → (runHealth d p r now iter).1 = false →
      d ≤ (runHealth d p r now iter).2 := by
  intro k
  induction k with
  | zero =>
    intro now iter hk _
    have h : ¬ now < d := by omega
    rw [runHealth_deadline d p r now iter h]
    omega
  | succ k ih =>
    intro now iter hk hfalse
    by_cases h : now < d
    · cases hready : (p iter).isReady with
      | true =>
        rw [runHealth_ready d p r now iter h hready] at hfalse
        simp at hfalse
      | false =>
        rw [runHealth_retry d p r now iter h hready] at hfalse ⊢
        exact ih (now + r iter + 1000) (iter + 1) (by omega) hfalse
    · rw [runHealth_deadline d p r now iter h]
      omega

theorem runHealth_first_ready (d : Nat) (p : Nat → PollResult)
    (r : Nat → Nat) :
    ∀ j now iter, (∀ i, i < j → (p (iter + i)).isReady = false) →
      (p (iter + j)).isReady = true → now + sumDur r iter j < d →
      runHealth d p r now iter =
        (true, now + sumDur r iter j + r (iter + j)) := by
  intro j
  induction j with
  | zero =>
    intro now iter _ hready hlt
    simp only [sumDur, Nat.add_zero] at hready hlt ⊢
    exact runHealth_ready d p r now iter hlt hready
  | succ j ih =>
    intro now iter hnot hready hlt
    have h0 : (p iter).isReady = false := by
      have := hnot 0 (Nat.succ_pos j)
      simpa using this
    have hsum : sumDur r iter (j + 1) =
        r iter + 1000 + sumDur r (iter + 1) j := rfl
    have hnow : now < d := by
      have : 0 ≤ sumDur r iter (j + 1) := Nat.zero_le _
      omega
    rw [runHealth_retry d p r now iter hnow h0]
    have hnot' : ∀ i, i < j → (p (iter + 1 + i)).isReady = false := by
      intro i hi
      have : iter + 1 + i = iter + (i + 1) := by omega
      rw [this]
      exact hnot (i + 1) (by omega)
    have hready' : (p (iter + 1 + j)).isReady = true := by
      have : iter + 1 + j = iter + (j + 1) := by omega
      rw [this]
      exact hready
    have hlt' : now + r iter + 1000 + sumDur r (iter + 1) j < d := by
      rw [hsum] at hlt
      omega
    have := ih (now + r iter + 1000) (iter + 1) hnot' hready' hlt'
    rw [this, hsum]
    have h1 : now + r iter + 1000 + sumDur r (iter + 1) j =
        now + (r iter + 1000 + sumDur r (iter + 1) j) := by omega
    have h2 : iter + 1 + j = iter + (j + 1) := by omega
    rw [h1, h2]

theorem runHealth_3999_notReady (d : Nat) (p : Nat → PollResult)
    (hp : ∀ i, (p i).isReady = false) :
    ∀ k now iter, d ≤ now + k * 4999 →
      (∀ j, j < k → now + j * 4999 < d) →
      runHealth d p (fun _ => 3999) now iter = (false, now + k * 4999) := by
  intro k
  induction k with
  | zero =>
    intro now iter hk _
    simp only [Nat.zero_mul, Nat.add_zero] at hk ⊢
    exact runHealth_deadline d p _ now iter (by omega)
  | succ k ih =>
    intro now iter hk hj
    have hnow : now < d := by
      have := hj 0 (Nat.succ_pos k)
      simpa using this
    rw [runHealth_retry d p _ now iter hnow (hp iter)]
    have h1 : now + 3999 + 1000 = now + 4999 := by omega
    rw [h1]
    have := ih (now + 4999) (iter + 1) (by omega)
      (fun j hjk => by
        have := hj (j + 1) (by omega)
        omega)
    rw [this]
    have : now + 4999 + k * 4999 = now + (k + 1) * 4999 := by ring
    rw [this]

/-- C2 (amended): for the fixed deadline `D = 90 s`, poll interval `1 s`
and per-request timeout `4 s`, the Health Prober returns no later than
`D + (one request timeout) + (one poll interval)` after invocation start
(the final sleep precedes the deadline re-check); it returns failure only
once the deadline has elapsed (so network errors and per-request timeouts
are never surfaced as fatal — any non-ready outcome, in particular
`netError` or `reqTimeout`, simply advances to the next poll iteration);
and it returns success on the first poll cycle whose health response
reports readiness. -/
theorem claim_C2_health_prober (probe : Nat → PollResult)
    (reqDur : Nat → Nat) (start : Nat) (hdur : ∀ i, reqDur i ≤ 4000) :
    (waitForHealth probe reqDur start).2 ≤ start + 90000 + 4000 + 1000 ∧
    ((waitForHealth probe reqDur start).1 = false →
      start + 90000 ≤ (waitForHealth probe reqDur start).2) ∧
    (∀ j, (∀ i, i < j → (probe i).isReady = false) →
      (probe j).isReady = true → start + sumDur reqDur 0 j < start + 90000 →
      waitForHealth probe reqDur start =
        (true, start + sumDur reqDur 0 j + reqDur j)) ∧
    (∀ now iter, now < start + 90000 →
      (probe iter = PollResult.netError ∨ probe iter = PollResult.reqTimeout) →
      runHealth (start + 90000) probe reqDur now iter =
        runHealth (start + 90000) probe reqDur
          (now + reqDur iter + 1000) (iter + 1)) := by
  refine ⟨?_, ?_, ?_, ?_⟩
  · have := runHealth_time_le (start + 90000) probe reqDur hdur
      (start + 90000) start 0 (by omega)
    have hm : max start (start + 90000 + 4999) = start + 90000 + 4999 := by
      exact max_eq_right (by omega)
    rw [hm] at this
    calc (waitForHealth probe reqDur start).2 ≤ start + 90000 + 4999 := this
      _ ≤ start + 90000 + 4000 + 1000 := by omega
  · intro hfalse
    exact runHealth_false_deadline (start + 90000) probe reqDur
      (start + 90000) start 0 (by omega) hfalse
  · intro j hnot hready hlt
    have := runHealth_first_ready (start + 90000) probe reqDur j start 0
      (fun i hi => by simpa using hnot i hi)
      (by simpa using hready) hlt
    simpa [waitForHealth] using this
  · intro now iter hlt herr
    refine runHealth_retry _ _ _ _ _ hlt ?_
    rcases herr with h | h <;> rw [h] <;> rfl

/-- C2 counterexample: the claim's bound "failure no later than
`D + one request timeout` (94 s) after invocation start" is violated.
With every request failing with a network error after 3999 ms (within the
4 s abort budget), the prober returns failure at `t = 94981 > 94000`:
the 1 s sleep of the final iteration also elapses before the deadline is
re-checked. -/
theorem claim_C2_counterexample :
    waitForHealth (fun _ => PollResult.netError) (fun _ => 3999) 0 =
      (false, 94981) ∧
    ¬ ((waitForHealth (fun _ => PollResult.netError) (fun _ => 3999) 0).2 ≤
      0 + 90000 + 4000) := by
  have h := runHealth_3999_notReady 90000 (fun _ => PollResult.netError)
    (fun _ => rfl) 19 0 0 (by norm_num) (by decide)
  constructor
  · unfold waitForHealth
    simpa using h
  · unfold waitForHealth
    simp only [Nat.zero_add] at h ⊢
    rw [h]
    norm_num

/-- C2 witness: the amended health-prober theorem instantiated at a
concrete environment (every request succeeds instantly). -/
theorem claim_C2_witness :
    (waitForHealth (fun _ => PollResult.ready) (fun _ => 0) 0).2 ≤
      0 + 90000 + 4000 + 1000 ∧
    ((waitForHealth (fun _ => PollResult.ready) (fun _ => 0) 0).1 = false →
      0 + 90000 ≤ (waitForHealth (fun _ => PollResult.ready) (fun _ => 0) 0).2) ∧
    (∀ j, (∀ i, i < j →
        ((fun _ => PollResult.ready) i).isReady = false) →
      ((fun _ => PollResult.ready) j).isReady = true →
      0 + sumDur (fun _ => 0) 0 j < 0 + 90000 →
      waitForHealth (fun _ => PollResult.ready) (fun _ => 0) 0 =
        (true, 0 + sumDur (fun _ => 0) 0 j + (fun _ => 0) j)) ∧
    (∀ now iter, now < 0 + 90000 →
      ((fun _ => PollResult.ready) iter = PollResult.netError ∨
        (fun _ => PollResult.ready) iter = PollResult.reqTimeout) →
      runHealth (0 + 90000) (fun _ => PollResult.ready) (fun _ => 0) now iter =
        runHealth (0 + 90000) (fun _ => PollResult.ready) (fun _ => 0)
          (now + (fun _ => 0) iter + 1000) (iter + 1)) :=
  claim_C2_health_prober (fun _ => PollResult.ready) (fun _ => 0) 0
    (fun _ => Nat.zero_le 4000)

end WB

/-! ## Sandbox Lifecycle Controller claim theorems -/

namespace WB

/-- C1 (amended): on the fresh-launch path (session record present, no
sandbox URL) the launch call is invoked exactly once while status is
idle (and never from a non-idle status); on launch success with a healthy
endpoint the status transitions idle→starting→ready and the URL is
published; the status transitions starting→error exactly when the launch
call fails — when the health probe fails on the fresh-launch path no
further transition occurs and the status remains starting (no error
transition). -/
theorem claim_C1_fresh_launch_lifecycle (env : LaunchEnv) :
    launchCount (sandboxEffect true (SessionQ.record none)
      SandboxStatus.idle env) = 1 ∧
    (∀ st, st ≠ SandboxStatus.idle →
      sandboxEffect true (SessionQ.record none) st env = []) ∧
    (∀ u, env.launch = Except.ok u → env.healthFresh = true →
      sandboxEffect true (SessionQ.record none) SandboxStatus.idle env =
        [SbEv.setStatus SandboxStatus.starting, SbEv.launchCall,
         SbEv.setUrl u, SbEv.setStatus SandboxStatus.ready] ∧
      statusEvents (sandboxEffect true (SessionQ.record none)
        SandboxStatus.idle env) =
        [SandboxStatus.starting, SandboxStatus.ready]) ∧
    (env.launch = Except.error () →
      sandboxEffect true (SessionQ.record none) SandboxStatus.idle env =
        [SbEv.setStatus SandboxStatus.starting, SbEv.launchCall,
         SbEv.setStatus SandboxStatus.error]) ∧
    (∀ u, env.launch = Except.ok u → env.healthFresh = false →
      sandboxEffect true (SessionQ.record none) SandboxStatus.idle env =
        [SbEv.setStatus SandboxStatus.starting, SbEv.launchCall] ∧
      statusEvents (sandboxEffect true (SessionQ.record none)
        SandboxStatus.idle env) = [SandboxStatus.starting]) := by
  obtain ⟨l, hf, he⟩ := env
  refine ⟨?_, ?_, ?_, ?_, ?_⟩
  · cases l <;> cases hf <;> rfl
  · intro st hst
    cases st with
    | idle => exact absurd rfl hst
    | starting => rfl
    | ready => rfl
    | error => rfl
  · intro u hu hh
    cases hu
    cases hh
    exact ⟨rfl, rfl⟩
  · intro hu
    cases hu
    rfl
  · intro u hu hh
    cases hu
    cases hh
    exact ⟨rfl, rfl⟩

/-- C1 counterexample: the claim asserts the status transitions
starting→error when the health probe fails on the fresh-launch path, but
when `launchSandbox` succeeds and `waitForHealth` reports failure the
effect performs no further transition: no `setStatus error` event occurs
and the run ends with the status still at starting. -/
theorem claim_C1_counterexample :
    sandboxEffect true (SessionQ.record none) SandboxStatus.idle
      ⟨Except.ok "https://sb.example", false, true⟩ =
      [SbEv.setStatus SandboxStatus.starting, SbEv.launchCall] ∧
    SbEv.setStatus SandboxStatus.error ∉
      sandboxEffect true (SessionQ.record none) SandboxStatus.idle
        ⟨Except.ok "https://sb.example", false, true⟩ := by
  constructor
  · rfl
  · intro hmem
    simp [sandboxEffect] at hmem

/-- C1 witness: the amended lifecycle theorem instantiated at a concrete
environment whose launch succeeds with URL "u" and whose health probe
reports healthy. -/
theorem claim_C1_witness :
    launchCount (sandboxEffect true (SessionQ.record none) SandboxStatus.idle
      ⟨Except.ok "u", true, true⟩) = 1 ∧
    sandboxEffect true (SessionQ.record none) SandboxStatus.idle
      ⟨Except.ok "u", true, true⟩ =
      [SbEv.setStatus SandboxStatus.starting, SbEv.launchCall,
       SbEv.setUrl "u", SbEv.setStatus SandboxStatus.ready] ∧
    statusEvents (sandboxEffect true (SessionQ.record none) SandboxStatus.idle
      ⟨Except.ok "u", true, true⟩) =
      [SandboxStatus.starting, SandboxStatus.ready] ∧
    sandboxEffect true (SessionQ.record none) SandboxStatus.starting
      ⟨Except.ok "u", true, true⟩ = [] :=
  ⟨(claim_C1_fresh_launch_lifecycle ⟨Except.ok "u", true, true⟩).1,
   ((claim_C1_fresh_launch_lifecycle ⟨Except.ok "u", true, true⟩).2.2.1
     "u" rfl rfl).1,
   ((claim_C1_fresh_launch_lifecycle ⟨Except.ok "u", true, true⟩).2.2.1
     "u" rfl rfl).2,
   (claim_C1_fresh_launch_lifecycle ⟨Except.ok "u", true, true⟩).2.1
     SandboxStatus.starting (by decide)⟩

end WB

/-! ## Cross-Frame Message Router claim theorems -/

namespace WB

/-- C6: every inbound message whose `ns` field is not the protocol tag
`"ai-tutor/wb"` is ignored by every modelled listener — the host-side
router performs no action and the embedded-side handlers (init listener
and both parent-command listeners) leave their state unchanged. -/
theorem claim_C6_namespace_filter (url sessionId convexUrl : Option String)
    (ist : Option InitSt) (cst1 cst2 : CmdState) (m : WBMessage)
    (h : m.ns ≠ some wbNs) :
    hostHandleMessage url sessionId convexUrl (some m) = [] ∧
    embedHandleMessage ist (some m) = ist ∧
    cmdListener1 cst1 (some m) = cst1 ∧
    cmdListener2 cst2 (some m) = cst2 := by
  refine ⟨?_, ?_, ?_, ?_⟩
  · unfold hostHandleMessage
    cases url with
    | none => simp [truthyStr]
    | some u =>
      by_cases hu : u = ""
      · simp [truthyStr, hu]
      · simp [truthyStr, hu, h]
  · simp [embedHandleMessage, h]
  · simp [cmdListener1, h]
  · simp [cmdListener2, h]

/-- C6 witness: the namespace-filter theorem instantiated at a concrete
message whose `ns` is `"other-protocol"`, against concrete listener
states. -/
theorem claim_C6_witness :
    hostHandleMessage (some "https://sb.example") (some "s1")
      (some "https://cvx.example") (some alienMsg) = [] ∧
    embedHandleMessage (some ⟨"s0", "c0", none⟩) (some alienMsg) =
      some ⟨"s0", "c0", none⟩ ∧
    cmdListener1 liveCmdState (some alienMsg) = liveCmdState ∧
    cmdListener2 liveCmdState (some alienMsg) = liveCmdState :=
  claim_C6_namespace_filter (some "https://sb.example") (some "s1")
    (some "https://cvx.example") (some ⟨"s0", "c0", none⟩)
    liveCmdState liveCmdState alienMsg (by decide)

/-- C9: the first-copy `cmdListener` (WhiteboardCanvas.tsx:496-524) drops
a correctly-namespaced `jump` message carrying an object list — its jump
branch is nested inside the block guarded by `type !== "command"` and is
unreachable, so no state changes, contradicting the claim; the
second-copy `cmdListener` (lines 1059-1089) behaves as the claim states:
it enters read-only history-view mode (interaction `evented` and
`selection` disabled), loads the given object list into the canvas and
shows the persistent banner, while a jump message without an object list
produces no state change. -/
theorem claim_C9_jump_history_mode :
    cmdListener1 liveCmdState (some jumpMsg) = liveCmdState ∧
    cmdListener2 liveCmdState (some jumpMsg) =
      { liveCmdState with
        isHistoryMode := true
        historyBanner := true
        evented := false
        selection := false
        hist := { liveCmdState.hist with canvas := [1, 2] } } ∧
    cmdListener2 liveCmdState (some jumpMsgNoObjects) = liveCmdState := by
  refine ⟨?_, ?_, ?_⟩ <;> decide

/-- C10: while the sandbox URL is not yet known (`url` falsy), the host
message handler drops every inbound message — including correctly
namespaced `ready` and `snapshot` messages — with no action, no state
change and no reply; conversely any run of the handler that performs an
action (the init handshake reply or snapshot persistence) implies a
non-empty URL has been published. -/
theorem claim_C10_host_requires_url (sessionId convexUrl : Option String)
    (m : Option WBMessage) (url : Option String) (m2 : Option WBMessage)
    (hne : hostHandleMessage url sessionId convexUrl m2 ≠ []) :
    hostHandleMessage none sessionId convexUrl m = [] ∧
    ∃ u, url = some u ∧ u ≠ "" := by
  constructor
  · unfold hostHandleMessage
    simp [truthyStr]
  · cases url with
    | none =>
      exfalso
      apply hne
      unfold hostHandleMessage
      simp [truthyStr]
    | some u =>
      by_cases hu : u = ""
      · exfalso
        apply hne
        unfold hostHandleMessage
        simp [truthyStr, hu]
      · exact ⟨u, rfl, hu⟩

/-- C10 witness: the theorem instantiated at concrete inputs — with no
URL the handler drops a correctly-namespaced `ready` message, while with
URL "https://sb.example" the same message produces actions (so the URL is
necessarily published and non-empty). -/
theorem claim_C10_witness :
    hostHandleMessage none (some "s1") (some "https://cvx.example")
      (some readyMsg) = [] ∧
    ∃ u, (some "https://sb.example" : Option String) = some u ∧ u ≠ "" :=
  claim_C10_host_requires_url (some "s1") (some "https://cvx.example")
    (some readyMsg) (some "https://sb.example") (some readyMsg) (by decide)

end WB

/-! ## Periodic snapshot flush claim theorems -/

namespace WB

theorem runFlush_sublist_tickTimes (tr : List FlushEv) :
    ∀ st : FlushSt, (runFlush st tr).2.Sublist (tickTimes tr) := by
  induction tr with
  | nil => intro st; simp [runFlush, tickTimes]
  | cons e rest ih =>
    intro st
    cases e with
    | mutate =>
      simp only [runFlush, flushStep, tickTimes, List.filterMap_cons]
      exact ih _
    | tick n =>
      simp only [runFlush, tickTimes, List.filterMap_cons]
      by_cases hc : 60000 ≤ n - st.lastTs ∨ 20 ≤ st.mutCount
      · simp only [flushStep, if_pos hc]
        exact List.Sublist.cons₂ n (ih _)
      · simp only [flushStep, if_neg hc]
        exact List.Sublist.cons n (ih _)

/-- C7: the periodic snapshot flush fires only inside a 5 s check tick
(the flush times of any trace form a sublist of the tick times, and a
`mut` event never posts), hence never sooner than the 5 s check
granularity (tick times being at least 5000 apart, so are flush times);
within a tick it fires exactly when at least 20 mutations have
accumulated or at least 60 s have elapsed since the last flush; and on
every flush the mutation counter and the elapsed-time baseline reset
together. -/
theorem claim_C7_snapshot_flush (st : FlushSt) (tr : List FlushEv)
    (hgrid : (tickTimes tr).Pairwise (fun a b => a + 5000 ≤ b)) :
    (runFlush st tr).2.Sublist (tickTimes tr) ∧
    (runFlush st tr).2.Pairwise (fun a b => a + 5000 ≤ b) ∧
    (∀ s now,
      ((flushStep s (FlushEv.tick now)).2 = true ↔
        (60000 ≤ now - s.lastTs ∨ 20 ≤ s.mutCount)) ∧
      ((flushStep s (FlushEv.tick now)).2 = true →
        (flushStep s (FlushEv.tick now)).1 =
          { mutCount := 0, lastTs := now })) ∧
    (∀ s, (flushStep s FlushEv.mutate).2 = false ∧
      (flushStep s FlushEv.mutate).1.lastTs = s.lastTs) := by
  refine ⟨runFlush_sublist_tickTimes tr st, ?_, ?_, ?_⟩
  · exact List.Pairwise.sublist (runFlush_sublist_tickTimes tr st) hgrid
  · intro s now
    constructor
    · constructor
      · intro hf
        by_contra hc
        simp [flushStep, if_neg hc] at hf
      · intro hc
        simp [flushStep, if_pos hc]
    · intro hf
      by_cases hc : 60000 ≤ now - s.lastTs ∨ 20 ≤ s.mutCount
      · simp [flushStep, if_pos hc]
      · simp [flushStep, if_neg hc] at hf
  · intro s
    exact ⟨rfl, rfl⟩

/-- C7 witness: the flush theorem instantiated at the initial counters
and a concrete trace of two ticks 5 s apart with a mutation in between. -/
theorem claim_C7_witness :
    (runFlush ⟨0, 0⟩ [FlushEv.mutate, FlushEv.tick 5000,
      FlushEv.tick 10000]).2.Sublist
      (tickTimes [FlushEv.mutate, FlushEv.tick 5000, FlushEv.tick 10000]) ∧
    (runFlush ⟨0, 0⟩ [FlushEv.mutate, FlushEv.tick 5000,
      FlushEv.tick 10000]).2.Pairwise (fun a b => a + 5000 ≤ b) ∧
    (∀ s now,
      ((flushStep s (FlushEv.tick now)).2 = true ↔
        (60000 ≤ now - s.lastTs ∨ 20 ≤ s.mutCount)) ∧
      ((flushStep s (FlushEv.tick now)).2 = true →
        (flushStep s (FlushEv.tick now)).1 =
          { mutCount := 0, lastTs := now })) ∧
    (∀ s, (flushStep s FlushEv.mutate).2 = false ∧
      (flushStep s FlushEv.mutate).1.lastTs = s.lastTs) :=
  claim_C7_snapshot_flush ⟨0, 0⟩
    [FlushEv.mutate, FlushEv.tick 5000, FlushEv.tick 10000] (by decide)

end WB

/-! ## Canvas Sync Engine claim theorems -/

namespace WB

theorem sceneReach_bg {sc : Scene} (h : SceneReach sc) :
    sc.bg = "#ffffff" := by
  induction h with
  | init => rfl
  | step sc objs _ ih => exact ih

/-- C8: reconciliation is idempotent — re-running it on the same object
list is a no-op, and from any two reachable prior scene states the same
list yields the same scene (same primitive set, widget divs and
background, hence identical visible content); an object with an
unrecognised kind tag contributes nothing (skipped without error). -/
theorem claim_C8_reconcile_idempotent (s s1 s2 : Scene)
    (objs pre post : List WBObjectSpec) (oid kind : String)
    (h1 : SceneReach s1) (h2 : SceneReach s2) :
    reconcile (reconcile s objs) objs = reconcile s objs ∧
    reconcile s1 objs = reconcile s2 objs ∧
    reconcile s (pre ++ WBObjectSpec.other oid kind :: post) =
      reconcile s (pre ++ post) := by
  refine ⟨rfl, ?_, ?_⟩
  · unfold reconcile
    rw [sceneReach_bg h1, sceneReach_bg h2]
  · unfold reconcile
    simp [List.filterMap_append, specToPrim, specToWidget]

/-- C8 witness: the reconciliation theorem instantiated at concrete
scenes (the initial scene and the scene left by a previous reconciliation
of a rectangle) and a concrete object list containing an unknown kind. -/
theorem claim_C8_witness :
    reconcile (reconcile initScene
        [WBObjectSpec.ink "i1" "M 0 0 L 1 1" none none])
      [WBObjectSpec.ink "i1" "M 0 0 L 1 1" none none] =
      reconcile initScene [WBObjectSpec.ink "i1" "M 0 0 L 1 1" none none] ∧
    reconcile initScene [WBObjectSpec.ink "i1" "M 0 0 L 1 1" none none] =
      reconcile
        (reconcile initScene [WBObjectSpec.rect "r1" 1 2 3 4 none none])
        [WBObjectSpec.ink "i1" "M 0 0 L 1 1" none none] ∧
    reconcile initScene
      ([WBObjectSpec.ink "i1" "M 0 0 L 1 1" none none] ++
        WBObjectSpec.other "x1" "hexagon" ::
          [WBObjectSpec.widget "w1" "plot" none none none none]) =
      reconcile initScene
        ([WBObjectSpec.ink "i1" "M 0 0 L 1 1" none none] ++
          [WBObjectSpec.widget "w1" "plot" none none none none]) :=
  claim_C8_reconcile_idempotent initScene initScene
    (reconcile initScene [WBObjectSpec.rect "r1" 1 2 3 4 none none])
    [WBObjectSpec.ink "i1" "M 0 0 L 1 1" none none]
    [WBObjectSpec.ink "i1" "M 0 0 L 1 1" none none]
    [WBObjectSpec.widget "w1" "plot" none none none none]
    "x1" "hexagon" SceneReach.init
    (SceneReach.step initScene
      [WBObjectSpec.rect "r1" 1 2 3 4 none none] SceneReach.init)

end WB
